import Mathlib

/-!
Shallow embedding of the Oberraut room-booking calendar core
(`src/screens/CalendarScreen.tsx` and `src/screens/HomeScreen.tsx`).

Dates are modelled at civil-day granularity: a `Date` value that the source
normalises to local midnight (`parseDate`, the day-grid generation loop, and
all `getTime`/`<`/`>=` comparisons) is represented by the integer number of
days since 1970-01-01.  `parseDate` on a stored `check_in`/`check_out` string
is therefore the identity on the day number that the record carries.
Calendar-month arithmetic (`Date.setMonth`, which keeps the day-of-month and
lets overflow roll into the following month, exactly ECMAScript `MakeDay`)
is implemented with the standard civil-from-days / days-from-civil
conversions.  Time-of-day and timezone effects are abstracted away.
-/

namespace Oberraut

/-- Civil date (year, month 1..12, day 1..31) from a day count since
1970-01-01, by the standard era-based algorithm (truncating division,
matching ECMAScript date decomposition). -/
def civilFromDays (z : Int) : Int × Nat × Nat :=
  let z := z + 719468
  let era : Int := (if 0 ≤ z then z else z - 146096) / 146097
  let doe : Nat := (z - era * 146097).toNat
  let yoe : Nat := (doe - doe / 1460 + doe / 36524 - doe / 146096) / 365
  let y : Int := (yoe : Int) + era * 400
  let doy : Nat := doe - (365 * yoe + yoe / 4 - yoe / 100)
  let mp : Nat := (5 * doy + 2) / 153
  let d : Nat := doy - (153 * mp + 2) / 5 + 1
  let m : Nat := if mp < 10 then mp + 3 else mp - 9
  (if m ≤ 2 then y + 1 else y, m, d)

/-- Day count since 1970-01-01 of a civil date; `d` may exceed the month
length, in which case the excess rolls into the following month, exactly as
ECMAScript `MakeDay` does. -/
def daysFromCivil (y : Int) (m d : Nat) : Int :=
  let y : Int := if m ≤ 2 then y - 1 else y
  let era : Int := (if 0 ≤ y then y else y - 399) / 400
  let yoe : Nat := (y - era * 400).toNat
  let mp : Nat := if 2 < m then m - 3 else m + 9
  let doy : Int := ((153 * mp + 2) / 5 : Nat) + (d : Int) - 1
  let doe : Int := (yoe : Int) * 365 + (yoe / 4 : Nat) - (yoe / 100 : Nat) + doy
  era * 146097 + doe - 719468

/-- Source `endDate.setMonth(endDate.getMonth() + n)`: keep the day-of-month, move
`n` months forward with year carry, letting day-of-month overflow roll over. -/
def addMonthsJS (z : Int) (n : Nat) : Int :=
  match civilFromDays z with
  | (y, m, d) =>
    let m0 : Nat := m - 1 + n
    daysFromCivil (y + (m0 / 12 : Nat)) (m0 % 12 + 1) d

/-- Source `toString().padStart(2, '0')` -/
def pad2 (n : Nat) : String :=
  if n < 10 then "0" ++ toString n else toString n

-- --- TYPEN ---

/-- Booking record (`Buchung`), date fields already parsed to day numbers;
`deleted_at` is the nullable soft-delete timestamp. -/
structure Buchung where
  id : Int
  zimmer_id : Int
  gast_id : Option Int
  check_in : Int
  check_out : Int
  anzahl_personen : Nat
  status : String
  verpflegung : Option String
  deleted_at : Option Int
deriving Repr, DecidableEq

structure Gast where
  id : Int
  vorname : String
  nachname : String
deriving Repr, DecidableEq

structure Zimmer where
  id : Int
  nummer : String
deriving Repr, DecidableEq

structure DayCellData where
  date : Int
  dayNumber : String
  monthYear : String
deriving Repr, DecidableEq

-- --- HILFSFUNKTIONEN (CalendarScreen.tsx) ---

/-- Source `parseDate`: midnight-normalised parse of a stored date; identity at
day granularity. -/
def parseDate (d : Int) : Int := d

/-- Source `isSameDay`: year/month/day equality ignoring time-of-day; at day
granularity this is equality of day numbers. -/
def isSameDay (d1 d2 : Int) : Bool := d1 == d2

/-- Source `findDayIndex`: `days.findIndex(d => isSameDay(d.date, date))`
(−1 when absent). -/
def findDayIndex (date : Int) (days : List DayCellData) : Int :=
  match days.findIdx? (fun d => isSameDay d.date date) with
  | some i => (i : Int)
  | none => -1

/-- Source `formatDayCellData` -/
def formatDayCellData (date : Int) : DayCellData :=
  match civilFromDays date with
  | (y, m, d) => { date := date, dayNumber := pad2 d, monthYear := pad2 m ++ "/" ++ toString y }

/-- Iterations of the `while (current <= endDate)` loop of
`generateDaysArray`: the loop pushes one cell and advances one day per
iteration, and runs exactly `max 0 (endDate + 1 - current)` times. -/
def genDaysAux : Nat → Int → List DayCellData
  | 0, _ => []
  | n + 1, current => formatDayCellData current :: genDaysAux n (current + 1)

/-- The `while (current <= endDate)` loop of `generateDaysArray`. -/
def genDays (current endDate : Int) : List DayCellData :=
  genDaysAux (endDate + 1 - current).toNat current

/-- Source `generateDaysArray(pastDays, futureMonths)`; `today` is the captured
current day. -/
def generateDaysArray (today : Int) (pastDays futureMonths : Nat) : List DayCellData :=
  genDays (today - pastDays) (addMonthsJS today futureMonths)

/-- Loop body of `isIntervalAvailableForzimmer` (the `for`-loop over
`bookings`, after the null/degenerate guards). -/
def availLoop (zimmerId start stop : Int) : List Buchung → Bool
  | [] => true
  | booking :: rest =>
    if booking.zimmer_id ≠ zimmerId then availLoop zimmerId start stop rest
    else
      let bookingStart := parseDate booking.check_in
      let bookingEnd := parseDate booking.check_out
      if start < bookingEnd ∧ stop > bookingStart then
        if stop = bookingStart ∨ start = bookingEnd then availLoop zimmerId start stop rest
        else false
      else availLoop zimmerId start stop rest

/-- Source `isIntervalAvailableForzimmer(zimmerId, start, end, bookings)`.
`if (!zimmerId) return false` is JavaScript truthiness: it rejects both
`null` and the number `0`. -/
def isIntervalAvailableForzimmer (zimmerId : Option Int) (start stop : Int)
    (bookings : List Buchung) : Bool :=
  match zimmerId with
  | none => false
  | some z =>
    if z = 0 then false
    else if start = stop then true
    else availLoop z start stop bookings

/-- The predicate inside `getBuchungForDay`'s `find`. -/
def matchesDay (b : Buchung) (zimmerId : Int) (day : DayCellData) : Bool :=
  b.zimmer_id == zimmerId
    && decide (parseDate b.check_in ≤ day.date)
    && decide (day.date ≤ parseDate b.check_out)

/-- Source `getBuchungForDay(dayData, zimmerId, buchungen)`:
`buchungen.find(...) || null`. -/
def getBuchungForDay (dayData : DayCellData) (zimmerId : Int)
    (buchungen : List Buchung) : Option Buchung :=
  buchungen.find? (fun b => matchesDay b zimmerId dayData)

/-- Source `setLocalBuchungen(buchungen.filter(b => !b.deleted_at))`: the
CalendarScreen works on the soft-delete-filtered list. -/
def localBuchungen (buchungen : List Buchung) : List Buchung :=
  buchungen.filter (fun b => b.deleted_at.isNone)

-- --- SELECTION STATE MACHINE (handleDayPress) ---

/-- The selection-relevant component state: `selectedCheckIn`,
`selectedCheckOut`, `selectedzimmerId`. -/
structure SelectionState where
  selectedCheckIn : Option DayCellData
  selectedCheckOut : Option DayCellData
  selectedzimmerId : Option Int
deriving Repr, DecidableEq

/-- Result of a day tap: the updated selection state, plus whether
`Alert.alert("Das Intervall ist nicht verfügbar.")` was raised. -/
structure DayPressResult where
  state : SelectionState
  alertShown : Bool
deriving Repr, DecidableEq

/-- Source `handleDayPress(day, zimmerId)` as a pure transition on the selection
state, over the soft-delete-filtered booking list the component holds. -/
def handleDayPress (s : SelectionState) (day : DayCellData) (zimmerId : Int)
    (buchungen : List Buchung) : DayPressResult :=
  match s.selectedCheckIn with
  | none =>
    if isIntervalAvailableForzimmer (some zimmerId) day.date day.date buchungen = false then
      ⟨s, false⟩
    else ⟨⟨some day, some day, some zimmerId⟩, false⟩
  | some selectedCheckIn =>
    if s.selectedzimmerId ≠ some zimmerId then
      if isIntervalAvailableForzimmer (some zimmerId) day.date day.date buchungen = false then
        ⟨s, false⟩
      else ⟨⟨some day, some day, some zimmerId⟩, false⟩
    else if isSameDay day.date selectedCheckIn.date then
      ⟨{ s with selectedCheckOut := some day }, false⟩
    else if selectedCheckIn.date ≤ day.date then
      let isAvailable := isIntervalAvailableForzimmer (some zimmerId)
        selectedCheckIn.date day.date buchungen
      let bookingAtDay := getBuchungForDay day zimmerId buchungen
      if isAvailable
          || (match bookingAtDay with
              | some b => isSameDay day.date (parseDate b.check_in)
              | none => false) then
        ⟨{ s with selectedCheckOut := some day }, false⟩
      else ⟨s, true⟩
    else ⟨{ s with selectedCheckIn := some day, selectedCheckOut := some day }, false⟩

-- --- HOMESCREEN AGGREGATES (HomeScreen.tsx summary section) ---

/-- The Check-Ins person count of the HomeScreen summary:
`buchungen.filter(b => isSameDay(new Date(b.check_in), selectedDate))
          .reduce((sum, b) => sum + b.anzahl_personen, 0)`.
Note the source applies no soft-delete filter here: `fetchData` loads
`buchungen` with a bare `select('*')`. -/
def checkInsPersonen (selectedDate : Int) (buchungen : List Buchung) : Nat :=
  (buchungen.filter (fun b => isSameDay b.check_in selectedDate)).foldl
    (fun sum b => sum + b.anzahl_personen) 0

/-- The Check-Ins entry list of the HomeScreen summary: one rendered row
per matching booking, resolving room number and guest name (placeholder
`"Unbekannt"` on a dangling guest id). -/
def checkInsEntries (selectedDate : Int) (buchungen : List Buchung)
    (gaeste : List Gast) (zimmer : List Zimmer) : List (String × String) :=
  (buchungen.filter (fun b => isSameDay b.check_in selectedDate)).map (fun b =>
    let guest := gaeste.find? (fun g => some g.id == b.gast_id)
    let roomNum := ((zimmer.find? (fun z => z.id == b.zimmer_id)).map Zimmer.nummer).getD ""
    (roomNum, match guest with
      | some g => g.vorname ++ " " ++ g.nachname
      | none => "Unbekannt"))

-- --- BOOKING BLOCK GEOMETRY (BookingBlockRow) ---

def DAY_WIDTH : Int := 60

/-- Horizontal geometry of a rendered booking block. -/
structure BlockGeometry where
  left : Int
  width : Int
deriving Repr, DecidableEq

/-- The `blockLeft`/`blockWidth` computation of `BookingBlockRow`, given the
grid column indices of the booking's check-in and check-out days. -/
def bookingBlockGeometry (startIndex endIndex : Int) : BlockGeometry :=
  let blockLeft := startIndex * DAY_WIDTH
  let blockWidth := (endIndex - startIndex + 1) * DAY_WIDTH
  if startIndex = endIndex then
    ⟨blockLeft + DAY_WIDTH / 2, DAY_WIDTH / 2⟩
  else
    ⟨blockLeft + DAY_WIDTH / 2, blockWidth - DAY_WIDTH⟩

-- --- DATA-MODEL INVARIANT (spec §3) ---

/-- Spec invariant: no two distinct non-deleted bookings of the same room
have overlapping interiors; touching at a single shared boundary day is
allowed. -/
def roomInvariant (bs : List Buchung) : Prop :=
  ∀ b1 ∈ bs, ∀ b2 ∈ bs,
    b1.deleted_at = none → b2.deleted_at = none →
    b1.zimmer_id = b2.zimmer_id → b1 ≠ b2 →
    b1.check_out ≤ b2.check_in ∨ b2.check_out ≤ b1.check_in

instance (bs : List Buchung) : Decidable (roomInvariant bs) := by
  unfold roomInvariant; infer_instance

-- --- CONCRETE FIXTURES ---

/-- Room-1 booking 2024-06-10 .. 2024-06-15 (the spec's booking `A`). -/
def bookingJun10_15 : Buchung :=
  { id := 1, zimmer_id := 1, gast_id := some 1,
    check_in := daysFromCivil 2024 6 10, check_out := daysFromCivil 2024 6 15,
    anzahl_personen := 2, status := "belegt", verpflegung := some "Frühstück",
    deleted_at := none }

/-- Room-1 booking 2024-06-15 .. 2024-06-20, abutting `bookingJun10_15` at
the shared boundary day 2024-06-15. -/
def bookingJun15_20 : Buchung :=
  { id := 2, zimmer_id := 1, gast_id := some 2,
    check_in := daysFromCivil 2024 6 15, check_out := daysFromCivil 2024 6 20,
    anzahl_personen := 3, status := "anzahlung", verpflegung := some "Halbpension",
    deleted_at := none }

/-- The day cell for 2024-06-15. -/
def dayJun15 : DayCellData := formatDayCellData (daysFromCivil 2024 6 15)

-- --- HELPER LEMMAS ---

/-- The availability loop answers false exactly when some listed booking of
the probed room overlaps the candidate without abutting it. -/
theorem availLoop_eq_false_iff (z s e : Int) (bs : List Buchung) :
    availLoop z s e bs = false ↔
      ∃ b ∈ bs, b.zimmer_id = z ∧ s < b.check_out ∧ b.check_in < e ∧
        e ≠ b.check_in ∧ s ≠ b.check_out := by
  induction bs with
  | nil => simp [availLoop]
  | cons b rest ih =>
    rw [List.exists_mem_cons_iff]
    simp only [availLoop, parseDate]
    by_cases hzid : b.zimmer_id ≠ z
    · rw [if_pos hzid, ih]
      constructor
      · exact fun h => Or.inr h
      · rintro (⟨hz1, _⟩ | h)
        · exact absurd hz1 hzid
        · exact h
    · rw [if_neg hzid]
      push_neg at hzid
      by_cases hov : s < b.check_out ∧ e > b.check_in
      · rw [if_pos hov]
        by_cases habut : e = b.check_in ∨ s = b.check_out
        · rw [if_pos habut, ih]
          constructor
          · exact fun h => Or.inr h
          · rintro (⟨_, _, _, hne, hns⟩ | h)
            · rcases habut with h1 | h1
              · exact absurd h1 hne
              · exact absurd h1 hns
            · exact h
        · rw [if_neg habut]
          push_neg at habut
          constructor
          · intro _
            exact Or.inl ⟨hzid, hov.1, hov.2, habut.1, habut.2⟩
          · intro _
            rfl
      · rw [if_neg hov, ih]
        constructor
        · exact fun h => Or.inr h
        · rintro (⟨_, h1, h2, _, _⟩ | h)
          · exact absurd ⟨h1, h2⟩ hov
          · exact h

/-- The availability loop ignores bookings of other rooms. -/
theorem availLoop_filter_room (z s e : Int) (bs : List Buchung) :
    availLoop z s e (bs.filter (fun b => b.zimmer_id == z)) = availLoop z s e bs := by
  induction bs with
  | nil => rfl
  | cons b rest ih =>
    rw [List.filter_cons]
    by_cases hb : b.zimmer_id = z
    · rw [if_pos (by simp [hb])]
      have hcons : ∀ tl, availLoop z s e (b :: tl) =
          if s < b.check_out ∧ e > b.check_in then
            (if e = b.check_in ∨ s = b.check_out then availLoop z s e tl else false)
          else availLoop z s e tl := by
        intro tl
        simp only [availLoop, parseDate]
        rw [if_neg (by simp [hb])]
      rw [hcons, hcons]
      split
      · split
        · exact ih
        · rfl
      · exact ih
    · rw [if_neg (by simp [hb])]
      have hcons : availLoop z s e (b :: rest) = availLoop z s e rest := by
        simp only [availLoop]
        rw [if_pos hb]
      rw [hcons]
      exact ih

-- --- CLAIM C10 ---

/-- C10: the result of `isIntervalAvailableForzimmer` equals its result on
the sublist of bookings belonging to the probed room, so adding, removing,
or altering bookings of other rooms can never change it. -/
theorem availability_depends_only_on_own_room (zimmerId : Option Int) (s e : Int)
    (bs : List Buchung) :
    isIntervalAvailableForzimmer zimmerId s e bs
      = isIntervalAvailableForzimmer zimmerId s e
          (bs.filter (fun b =>
            match zimmerId with
            | some z => b.zimmer_id == z
            | none => false)) := by
  match zimmerId with
  | none => rfl
  | some z =>
    simp only [isIntervalAvailableForzimmer]
    by_cases h0 : z = 0
    · simp [h0]
    · rw [if_neg h0, if_neg h0]
      by_cases hse : s = e
      · simp [hse]
      · rw [if_neg hse, if_neg hse, availLoop_filter_room]

-- --- CLAIM C2 ---

/-- C2 counterexample: the claim asserts a degenerate probe is available for
any room id, but room id 0 is JavaScript-falsy (`if (!zimmerId) return
false`), so the probe returns false even with a non-empty bookings list. -/
theorem degenerate_probe_room_zero_unavailable :
    isIntervalAvailableForzimmer (some 0) (daysFromCivil 2024 7 1)
      (daysFromCivil 2024 7 1) [bookingJun10_15] = false := by
  rfl

/-- C2 amended: for a non-null and nonzero (truthy) room id, a degenerate
single-day probe with `start = end` is available for every date and every
bookings list. -/
theorem degenerate_probe_always_available (z : Int) (hz : z ≠ 0) (d : Int)
    (bs : List Buchung) :
    isIntervalAvailableForzimmer (some z) d d bs = true := by
  simp [isIntervalAvailableForzimmer, hz]

/-- Witness for C2 amended: room 1, a concrete date, a non-empty list. -/
theorem degenerate_probe_always_available_witness :
    isIntervalAvailableForzimmer (some 1) (daysFromCivil 2024 6 12)
      (daysFromCivil 2024 6 12) [bookingJun10_15] = true :=
  degenerate_probe_always_available 1 (by decide) (daysFromCivil 2024 6 12)
    [bookingJun10_15]

-- --- CLAIM C1 ---

/-- C1 counterexample: the claim quantifies over every non-null room id, but
for room id 0 (JavaScript-falsy) the function returns false although no
booking of that room conflicts — here the bookings list is empty, the range
is non-degenerate, and the characterisation would demand the result true. -/
theorem overlap_characterisation_fails_room_zero :
    isIntervalAvailableForzimmer (some 0) 0 5 [] = false ∧ (0 : Int) < 5 ∧
      ¬∃ b ∈ ([] : List Buchung), b.zimmer_id = 0 := by
  refine ⟨rfl, by decide, ?_⟩
  simp

/-- C1 amended: for a non-null **nonzero** room id and `start < end`,
`isIntervalAvailableForzimmer` returns false exactly when some booking of
that room in the supplied list satisfies `start < bookingEnd` and
`end > bookingStart` without the candidate's end equalling that booking's
start or the candidate's start equalling that booking's end. -/
theorem unavailable_iff_strict_overlap (z s e : Int) (hz : z ≠ 0) (hse : s < e)
    (bs : List Buchung) :
    isIntervalAvailableForzimmer (some z) s e bs = false ↔
      ∃ b ∈ bs, b.zimmer_id = z ∧ s < parseDate b.check_out ∧
        parseDate b.check_in < e ∧ e ≠ parseDate b.check_in ∧
        s ≠ parseDate b.check_out := by
  have hne : s ≠ e := by omega
  simp only [isIntervalAvailableForzimmer, if_neg hz, if_neg hne, parseDate]
  exact availLoop_eq_false_iff z s e bs

/-- Witness for C1 amended: the two scenarios the claim names — candidate
2024-06-12 .. 2024-06-18 against booking 2024-06-10 .. 2024-06-15 is
rejected, and candidate 2024-06-15 .. 2024-06-20 abutting that booking's
end is accepted. -/
theorem unavailable_iff_strict_overlap_witness :
    isIntervalAvailableForzimmer (some 1) (daysFromCivil 2024 6 12)
      (daysFromCivil 2024 6 18) [bookingJun10_15] = false ∧
    isIntervalAvailableForzimmer (some 1) (daysFromCivil 2024 6 15)
      (daysFromCivil 2024 6 20) [bookingJun10_15] = true := by
  constructor
  · exact (unavailable_iff_strict_overlap 1 (daysFromCivil 2024 6 12)
      (daysFromCivil 2024 6 18) (by decide) (by decide) [bookingJun10_15]).mpr
      (by decide)
  · have h := unavailable_iff_strict_overlap 1 (daysFromCivil 2024 6 15)
      (daysFromCivil 2024 6 20) (by decide) (by decide) [bookingJun10_15]
    rcases Bool.eq_false_or_eq_true (isIntervalAvailableForzimmer (some 1)
      (daysFromCivil 2024 6 15) (daysFromCivil 2024 6 20) [bookingJun10_15]) with ht | hf
    · exact ht
    · exact absurd (h.mp hf) (by decide)

-- --- CLAIM C4 ---

/-- C4: from the `Empty` selection state, tapping an available day yields
`CheckInOnly` (check-in = check-out = that day, room recorded), and that
state is a fixpoint of further taps on the same day in the same room: no
repetition ever produces a `RangeSelected` state (check-in ≠ check-out). -/
theorem tap_available_day_checkin_only (day : DayCellData) (z : Int)
    (bs : List Buchung)
    (h : isIntervalAvailableForzimmer (some z) day.date day.date bs = true) :
    handleDayPress ⟨none, none, none⟩ day z bs
        = ⟨⟨some day, some day, some z⟩, false⟩ ∧
      handleDayPress ⟨some day, some day, some z⟩ day z bs
        = ⟨⟨some day, some day, some z⟩, false⟩ := by
  constructor
  · simp [handleDayPress, h]
  · simp [handleDayPress, isSameDay]

/-- Witness for C4: room 1, day cell 2024-06-15, empty bookings list. -/
theorem tap_available_day_checkin_only_witness :
    handleDayPress ⟨none, none, none⟩ dayJun15 1 []
        = ⟨⟨some dayJun15, some dayJun15, some 1⟩, false⟩ ∧
      handleDayPress ⟨some dayJun15, some dayJun15, some 1⟩ dayJun15 1 []
        = ⟨⟨some dayJun15, some dayJun15, some 1⟩, false⟩ :=
  tap_available_day_checkin_only dayJun15 1 [] (by rfl)

-- --- CLAIM C3 ---

/-- C3: with a check-in selected in room `z` (a real room, so `z ≠ 0`) and a
tap on a day on or after it in the same room, the tap is accepted as the new
check-out — leaving the rest of the selection untouched and raising no
alert — exactly when the interval `[check-in, tappedDay]` is available or
the booking occupying the tapped day has its own check-in on that day;
otherwise the "Intervall ist nicht verfügbar" alert is raised and the
selection state is returned unchanged. -/
theorem tap_after_checkin_accept_iff (s : SelectionState) (ci day : DayCellData)
    (z : Int) (bs : List Buchung)
    (hci : s.selectedCheckIn = some ci) (hz : s.selectedzimmerId = some z)
    (hz0 : z ≠ 0) (hord : ci.date ≤ day.date) :
    ((isIntervalAvailableForzimmer (some z) ci.date day.date bs
        || (match getBuchungForDay day z bs with
            | some b => isSameDay day.date (parseDate b.check_in)
            | none => false)) = true →
      handleDayPress s day z bs = ⟨{ s with selectedCheckOut := some day }, false⟩) ∧
    ((isIntervalAvailableForzimmer (some z) ci.date day.date bs
        || (match getBuchungForDay day z bs with
            | some b => isSameDay day.date (parseDate b.check_in)
            | none => false)) = false →
      handleDayPress s day z bs = ⟨s, true⟩) := by
  simp only [handleDayPress, hci, hz]
  rw [if_neg (by simp)]
  by_cases hsd : day.date = ci.date
  · have havail : isIntervalAvailableForzimmer (some z) ci.date day.date bs = true := by
      rw [hsd]
      exact degenerate_probe_always_available z hz0 ci.date bs
    rw [if_pos (by simp [isSameDay, hsd])]
    constructor
    · intro _
      rfl
    · intro hfalse
      rw [havail] at hfalse
      simp at hfalse
  · rw [if_neg (by simp [isSameDay, hsd]), if_pos hord]
    constructor
    · intro htrue
      rw [if_pos htrue]
    · intro hfalse
      rw [if_neg (by simp [hfalse])]

/-- Witness for C3: check-in 2024-06-15 selected in room 1; tapping
2024-06-18 with booking 2024-06-10..15 present is accepted (the interval
abuts the booking's end). -/
theorem tap_after_checkin_accept_iff_witness :
    handleDayPress ⟨some dayJun15, some dayJun15, some 1⟩
        (formatDayCellData (daysFromCivil 2024 6 18)) 1 [bookingJun10_15]
      = ⟨⟨some dayJun15,
          some (formatDayCellData (daysFromCivil 2024 6 18)), some 1⟩, false⟩ :=
  (tap_after_checkin_accept_iff ⟨some dayJun15, some dayJun15, some 1⟩
      dayJun15 (formatDayCellData (daysFromCivil 2024 6 18)) 1 [bookingJun10_15]
      rfl rfl (by decide) (by decide)).1 (by decide)

-- --- CLAIM C6 ---

/-- C6 counterexample: the claim's "at most one non-deleted booking whose
inclusive range contains the day" is false on a shared boundary day. The
data-model invariant admits two room-1 bookings touching at 2024-06-15;
both inclusive ranges contain that day, and `getBuchungForDay` returns the
first, not a unique qualifier. -/
theorem booking_on_day_not_unique_at_boundary :
    roomInvariant [bookingJun10_15, bookingJun15_20] ∧
    bookingJun10_15.deleted_at = none ∧ bookingJun15_20.deleted_at = none ∧
    matchesDay bookingJun10_15 1 dayJun15 = true ∧
    matchesDay bookingJun15_20 1 dayJun15 = true ∧
    bookingJun10_15 ≠ bookingJun15_20 ∧
    getBuchungForDay dayJun15 1 [bookingJun10_15, bookingJun15_20]
      = some bookingJun10_15 := by
  refine ⟨by decide, rfl, rfl, by decide, by decide, by decide, by decide⟩

/-- C6 amended: on a list of non-deleted bookings satisfying the interior
no-overlap invariant, `getBuchungForDay` returns `none` exactly when no
booking of the room contains the day, any returned booking is a listed
qualifier, and two qualifiers either coincide or touch the day as a shared
boundary (one checks out and the other checks in on that day) — so away
from shared boundary days the qualifier is unique. -/
theorem booking_on_day_characterisation (day : DayCellData) (z : Int)
    (bs : List Buchung) (hinv : roomInvariant bs)
    (hnd : ∀ b ∈ bs, b.deleted_at = none) :
    (getBuchungForDay day z bs = none ↔ ∀ b ∈ bs, matchesDay b z day = false) ∧
    (∀ b, getBuchungForDay day z bs = some b → b ∈ bs ∧ matchesDay b z day = true) ∧
    (∀ b1 ∈ bs, ∀ b2 ∈ bs, matchesDay b1 z day = true → matchesDay b2 z day = true →
      b1 = b2 ∨ (parseDate b1.check_out = day.date ∧ parseDate b2.check_in = day.date)
        ∨ (parseDate b2.check_out = day.date ∧ parseDate b1.check_in = day.date)) := by
  refine ⟨?_, ?_, ?_⟩
  · rw [getBuchungForDay, List.find?_eq_none]
    constructor
    · intro h b hb
      exact Bool.not_eq_true _ ▸ Bool.eq_false_iff.mpr (h b hb)
    · intro h b hb
      simp [h b hb]
  · intro b hfind
    rw [getBuchungForDay] at hfind
    have hm := List.mem_of_find?_eq_some hfind
    have hp := List.find?_some hfind
    exact ⟨hm, hp⟩
  · intro b1 h1 b2 h2 hm1 hm2
    by_cases heq : b1 = b2
    · exact Or.inl heq
    · have hq1 : b1.zimmer_id = z ∧ b1.check_in ≤ day.date ∧ day.date ≤ b1.check_out := by
        simpa [matchesDay, parseDate, Bool.and_eq_true, decide_eq_true_eq, and_assoc] using hm1
      have hq2 : b2.zimmer_id = z ∧ b2.check_in ≤ day.date ∧ day.date ≤ b2.check_out := by
        simpa [matchesDay, parseDate, Bool.and_eq_true, decide_eq_true_eq, and_assoc] using hm2
      rcases hinv b1 h1 b2 h2 (hnd b1 h1) (hnd b2 h2)
          (by rw [hq1.1, hq2.1]) heq with hle | hle
      · refine Or.inr (Or.inl ⟨?_, ?_⟩) <;> simp only [parseDate] <;> omega
      · refine Or.inr (Or.inr ⟨?_, ?_⟩) <;> simp only [parseDate] <;> omega

/-- Witness for C6 amended: the returned booking on 2024-06-15 is a listed
qualifier. -/
theorem booking_on_day_characterisation_witness :
    bookingJun10_15 ∈ [bookingJun10_15, bookingJun15_20] ∧
    matchesDay bookingJun10_15 1 dayJun15 = true :=
  (booking_on_day_characterisation dayJun15 1 [bookingJun10_15, bookingJun15_20]
    (by decide) (by decide)).2.1 bookingJun10_15 (by decide)

-- --- CLAIM C7 ---

theorem formatDayCellData_date (d : Int) : (formatDayCellData d).date = d := rfl

theorem genDaysAux_length (n : Nat) (c : Int) : (genDaysAux n c).length = n := by
  induction n generalizing c with
  | zero => rfl
  | succ n ih => simp [genDaysAux, ih]

theorem genDaysAux_get (n : Nat) (c : Int) (i : Nat)
    (h : i < (genDaysAux n c).length) :
    ((genDaysAux n c).get ⟨i, h⟩).date = c + i := by
  induction n generalizing c i with
  | zero => simp [genDaysAux] at h
  | succ n ih =>
    rcases i with _ | i
    · simp [genDaysAux, formatDayCellData_date]
    · simp only [genDaysAux, List.get_cons_succ]
      rw [ih (c + 1) i _]
      push_cast
      ring

theorem genDaysAux_findIdx (n : Nat) (c : Int) (i : Nat) (h : i < n) :
    (genDaysAux n c).findIdx? (fun d => isSameDay d.date (c + i)) = some i := by
  induction n generalizing c i with
  | zero => omega
  | succ n ih =>
    rcases i with _ | i
    · simp [genDaysAux, List.findIdx?_cons, isSameDay, formatDayCellData_date]
    · have harg : c + ((i + 1 : Nat) : Int) = (c + 1) + (i : Int) := by
        push_cast
        ring
      rw [show genDaysAux (n + 1) c = formatDayCellData c :: genDaysAux n (c + 1) from rfl,
        List.findIdx?_cons,
        if_neg (by simp [isSameDay, formatDayCellData_date]; omega),
        harg, show (1 : Nat) = 0 + 1 from rfl, List.findIdx?_succ,
        ih (c + 1) i (by omega)]
      rfl

/-- C7: the generated day grid is the contiguous, strictly increasing
sequence of consecutive calendar days from `today - pastDays` through
`today + futureMonths` (calendar-month arithmetic, `addMonthsJS`), one cell
per day; and `findDayIndex` on the calendar date of each element returns
that element's own position. -/
theorem generateDaysArray_contiguous_indexable (today : Int) (p f : Nat) :
    ((generateDaysArray today p f).length
        = (addMonthsJS today f + 1 - (today - p)).toNat) ∧
    (∀ i (h : i < (generateDaysArray today p f).length),
        ((generateDaysArray today p f).get ⟨i, h⟩).date = today - p + i) ∧
    (∀ i (h : i + 1 < (generateDaysArray today p f).length),
        ((generateDaysArray today p f).get ⟨i + 1, h⟩).date
          = ((generateDaysArray today p f).get ⟨i, Nat.lt_of_succ_lt h⟩).date + 1) ∧
    (∀ i (h : i < (generateDaysArray today p f).length),
        findDayIndex ((generateDaysArray today p f).get ⟨i, h⟩).date
          (generateDaysArray today p f) = i) := by
  refine ⟨?_, ?_, ?_, ?_⟩
  · rw [generateDaysArray, genDays, genDaysAux_length]
  · intro i h
    exact genDaysAux_get _ _ i h
  · intro i h
    show ((genDaysAux (addMonthsJS today f + 1 - (today - p)).toNat (today - p)).get
          ⟨i + 1, h⟩).date
        = ((genDaysAux (addMonthsJS today f + 1 - (today - p)).toNat (today - p)).get
          ⟨i, Nat.lt_of_succ_lt h⟩).date + 1
    rw [genDaysAux_get _ _ (i + 1) h, genDaysAux_get _ _ i (Nat.lt_of_succ_lt h)]
    push_cast
    ring
  · intro i h
    show findDayIndex
        ((genDaysAux (addMonthsJS today f + 1 - (today - p)).toNat (today - p)).get
          ⟨i, h⟩).date
        (genDaysAux (addMonthsJS today f + 1 - (today - p)).toNat (today - p)) = i
    rw [genDaysAux_get _ _ i h, findDayIndex,
      genDaysAux_findIdx _ _ i (by simpa [generateDaysArray, genDays, genDaysAux_length] using h)]

/-- Witness for C7: grid from two days before day 0 with zero future months;
the element at position 1 indexes back to 1. -/
theorem generateDaysArray_contiguous_indexable_witness :
    findDayIndex ((generateDaysArray 0 2 0).get ⟨1, by decide⟩).date
      (generateDaysArray 0 2 0) = 1 :=
  (generateDaysArray_contiguous_indexable 0 2 0).2.2.2 1 (by decide)

-- --- CLAIM C8 ---

/-- The spec scenario's booking `B1`: room 1, check-in 2024-07-01,
2 persons, non-deleted. -/
def bookingB1 : Buchung :=
  { id := 11, zimmer_id := 1, gast_id := some 1,
    check_in := daysFromCivil 2024 7 1, check_out := daysFromCivil 2024 7 3,
    anzahl_personen := 2, status := "belegt", verpflegung := none,
    deleted_at := none }

/-- The spec scenario's booking `B2`: room 2, check-in 2024-07-01,
3 persons, non-deleted. -/
def bookingB2 : Buchung :=
  { id := 12, zimmer_id := 2, gast_id := some 2,
    check_in := daysFromCivil 2024 7 1, check_out := daysFromCivil 2024 7 5,
    anzahl_personen := 3, status := "belegt", verpflegung := none,
    deleted_at := none }

theorem foldl_add_personen (l : List Buchung) (a : Nat) :
    l.foldl (fun sum b => sum + b.anzahl_personen) a
      = a + (l.map Buchung.anzahl_personen).sum := by
  induction l generalizing a with
  | nil => simp
  | cons b rest ih => simp [ih, Nat.add_assoc]

/-- C8: with the check-in-falls-on-date predicate, the HomeScreen Check-Ins
aggregate counts the sum of `anzahl_personen` over exactly the bookings
whose check-in is the given calendar day, and renders one entry per such
booking; on the concrete 2024-07-01 scenario with B1 (2 persons) and
B2 (3 persons) it yields count 5 and two entries. -/
theorem check_ins_aggregate :
    (∀ (d : Int) (bs : List Buchung),
        checkInsPersonen d bs
          = ((bs.filter (fun b => isSameDay b.check_in d)).map
              Buchung.anzahl_personen).sum) ∧
    (∀ (d : Int) (bs : List Buchung) (gs : List Gast) (zs : List Zimmer),
        (checkInsEntries d bs gs zs).length
          = (bs.filter (fun b => isSameDay b.check_in d)).length) ∧
    checkInsPersonen (daysFromCivil 2024 7 1) [bookingB1, bookingB2] = 5 ∧
    (checkInsEntries (daysFromCivil 2024 7 1) [bookingB1, bookingB2] [] []).length
      = 2 := by
  refine ⟨?_, ?_, by decide, by decide⟩
  · intro d bs
    rw [checkInsPersonen, foldl_add_personen, Nat.zero_add]
  · intro d bs gs zs
    rw [checkInsEntries, List.length_map]

-- --- CLAIM C9 ---

/-- C9 counterexample: a single-day booking's block is *not* centered in its
column. Centered would mean the block's midpoint coincides with the
column's midpoint (`2 * left + width = 2 * columnLeft + DAY_WIDTH`); at
column 0 the code produces `left = 30, width = 30`, whose doubled midpoint
is 90, not 60. -/
theorem single_day_block_not_centered :
    bookingBlockGeometry 0 0 = ⟨30, 30⟩ ∧
    ¬(2 * (bookingBlockGeometry 0 0).left + (bookingBlockGeometry 0 0).width
        = 2 * (0 * DAY_WIDTH) + DAY_WIDTH) := by
  refine ⟨rfl, by decide⟩

/-- C9 amended: a multi-day block runs from the check-in column's center
with width `(endIndex - startIndex) * DAY_WIDTH` (so it ends at the
check-out column's center), exactly as the claim states; but a single-day
booking renders as a half-width block occupying the *right* half of its
column — from the column's center to the column's right edge — rather than
being centered in the column. -/
theorem booking_block_geometry (startIndex endIndex : Int) :
    (startIndex ≠ endIndex →
      bookingBlockGeometry startIndex endIndex
        = ⟨startIndex * DAY_WIDTH + DAY_WIDTH / 2,
            (endIndex - startIndex) * DAY_WIDTH⟩) ∧
    (startIndex = endIndex →
      (bookingBlockGeometry startIndex endIndex).left
          = startIndex * DAY_WIDTH + DAY_WIDTH / 2 ∧
        (bookingBlockGeometry startIndex endIndex).left
            + (bookingBlockGeometry startIndex endIndex).width
          = (startIndex + 1) * DAY_WIDTH) := by
  constructor
  · intro h
    simp only [bookingBlockGeometry, if_neg h, BlockGeometry.mk.injEq]
    constructor
    · trivial
    · ring
  · intro h
    simp only [bookingBlockGeometry, if_pos h]
    constructor
    · trivial
    · simp only [DAY_WIDTH]
      omega

/-- Witness for C9 amended: a three-day block over columns 0..2 and a
single-day block in column 2. -/
theorem booking_block_geometry_witness :
    bookingBlockGeometry 0 2 = ⟨30, 120⟩ ∧
    (bookingBlockGeometry 2 2).left = 150 ∧
    (bookingBlockGeometry 2 2).left + (bookingBlockGeometry 2 2).width = 180 := by
  refine ⟨(booking_block_geometry 0 2).1 (by decide), ?_, ?_⟩
  · exact ((booking_block_geometry 2 2).2 rfl).1
  · exact ((booking_block_geometry 2 2).2 rfl).2

-- --- CLAIM C5 ---

/-- A soft-deleted booking (non-null `deleted_at`) whose check-in falls on
2024-07-01. -/
def bookingDeletedJul : Buchung :=
  { id := 9, zimmer_id := 1, gast_id := some 1,
    check_in := daysFromCivil 2024 7 1, check_out := daysFromCivil 2024 7 3,
    anzahl_personen := 2, status := "belegt", verpflegung := some "Frühstück",
    deleted_at := some 0 }

/-- The day cell for 2024-07-01. -/
def dayJul1 : DayCellData := formatDayCellData (daysFromCivil 2024 7 1)

/-- C5: the CalendarScreen paths do exclude soft-deleted bookings (they run
on `localBuchungen`, which filters them), but the HomeScreen aggregates do
not — `fetchData` loads bookings with a bare `select('*')` and the summary
filters only by date predicates, so a soft-deleted booking contributes its
person count and an entry to the Check-Ins aggregate, contradicting the
claim. -/
theorem soft_deleted_counted_in_home_aggregates :
    bookingDeletedJul.deleted_at ≠ none ∧
    checkInsPersonen (daysFromCivil 2024 7 1) [bookingDeletedJul] = 2 ∧
    (checkInsEntries (daysFromCivil 2024 7 1) [bookingDeletedJul] [] []).length
      = 1 ∧
    getBuchungForDay dayJul1 1 (localBuchungen [bookingDeletedJul]) = none ∧
    isIntervalAvailableForzimmer (some 1) (daysFromCivil 2024 7 1)
      (daysFromCivil 2024 7 5) (localBuchungen [bookingDeletedJul]) = true := by
  refine ⟨by decide, by decide, by decide, by decide, by decide⟩

/-- Sanity anchors for the date model: the civil conversions agree at the
epoch, day differences match the calendar, and `addMonthsJS` exhibits the
ECMAScript day-of-month rollover (Jan 31 + 1 month = Mar 2 in a leap
year). -/
theorem date_model_sanity :
    civilFromDays 0 = (1970, 1, 1) ∧
    daysFromCivil 1970 1 1 = 0 ∧
    daysFromCivil 2024 6 15 - daysFromCivil 2024 6 10 = 5 ∧
    addMonthsJS 0 1 = 31 ∧
    addMonthsJS (daysFromCivil 2024 1 31) 1 = daysFromCivil 2024 3 2 ∧
    (generateDaysArray 0 2 0).length = 3 := by
  refine ⟨by decide, by decide, by decide, by decide, by decide, by decide⟩

end Oberraut
